import Mathlib

/-!
# LogBridge: the native-to-managed logging bridge

A shallow embedding of `src/native/common/LogBridge.c` and of the macros of
`src/native/common/Utils.h` that it expands.

* The four file-scope variables of `LogBridge.c` (`class_Logging`, `mID_log`,
  `logLevel`, `nativeLoggingEnabled`) are fields of `State`.
* The JNI environment `env` is not code of the repository.  It is represented by
  the pending-exception slot `State.pending`, by the list `State.trace` of the JNI
  calls issued so far (each event records the arguments and the returned value),
  and by an arbitrary oracle `JVM` that chooses the result of every JNI function
  whose result is not determined by the pending-exception slot.  The oracle sees
  the whole history, so two calls with equal arguments may answer differently.
* References (`jclass`, `jstring`, `jthrowable`, `jmethodID`) are natural numbers,
  `0` being `NULL`.  Levels are C `int`s that are only ever compared, never
  computed with, so they are integers.
* The level constants come from the generated header
  `eu_giulianogorgone_fluidswipe_utils_log_Logging.h`, which is not part of the
  sources; they are the parameter `LogLevels`.
-/

namespace LogBridge

/-- A JNI handle (`jobject`, `jclass`, `jstring`, `jthrowable`, `jmethodID`); `0` is `NULL`. -/
abbrev Ref := Nat

/-- The constants `eu_giulianogorgone_fluidswipe_utils_log_Logging_OFF`, `..._SEVERE` and
`..._ALL` of the generated JNI header, which is not among the sources: a parameter. -/
structure LogLevels where
  OFF : Int
  SEVERE : Int
  ALL : Int
deriving DecidableEq

/-- One call through the `JNIEnv` function table, with its arguments and its result. -/
inductive JniCall where
  | ExceptionCheck (ret : Bool)
  | ExceptionOccurred (ret : Ref)
  | ExceptionClear
  | NewGlobalRef (obj ret : Ref)
  | DeleteGlobalRef (obj : Ref)
  | DeleteLocalRef (obj : Ref)
  | GetStaticMethodID (cls : Ref) (name sig : String) (ret : Ref)
  | NewStringUTF (bytes : String) (ret : Ref)
  | CallStaticVoidMethod (cls mid : Ref) (level : Int) (jTag jMethodName jMsg throwable : Ref)
deriving DecidableEq

/-- The managed runtime seen from native code: for each JNI function whose result the bridge
does not control, the returned value and the exception it raises (`0`: none), as a function
of the history of JNI calls and of the arguments. -/
structure JVM where
  newGlobalRef : List JniCall → Ref → Ref × Ref
  getStaticMethodID : List JniCall → Ref → String → String → Ref × Ref
  newStringUTF : List JniCall → String → Ref × Ref
  callStaticVoidMethod : List JniCall → Ref → Ref → Int → Ref → Ref → Ref → Ref → Ref

/-- The file-scope variables of `LogBridge.c` together with the observable part of `env`. -/
structure State where
  class_Logging : Ref
  mID_log : Ref
  logLevel : Int
  nativeLoggingEnabled : Int
  pending : Ref
  trace : List JniCall
deriving DecidableEq

/-- Program start: `class_Logging` and `mID_log` are zero-initialised statics,
`logLevel = OFF`, `nativeLoggingEnabled = 0`; no JNI call has been issued yet. -/
def initialState (lv : LogLevels) (pending : Ref) : State :=
  { class_Logging := 0, mID_log := 0, logLevel := lv.OFF, nativeLoggingEnabled := 0,
    pending := pending, trace := [] }

/-! ## The JNI functions used by the bridge -/

/-- Record a JNI call. -/
def emit (w : State) (c : JniCall) : State :=
  { w with trace := w.trace ++ [c] }

/-- A JNI function raising exception `e` (`0`: it raises nothing). -/
def raise (w : State) (e : Ref) : State :=
  if e = 0 then w else { w with pending := e }

/-- JNI `ExceptionCheck`: whether an exception is pending. -/
def ExceptionCheck (w : State) : Bool × State :=
  (decide (w.pending ≠ 0), emit w (.ExceptionCheck (decide (w.pending ≠ 0))))

/-- JNI `ExceptionOccurred`: a reference to the pending exception, `NULL` if there is none. -/
def ExceptionOccurred (w : State) : Ref × State :=
  (w.pending, emit w (.ExceptionOccurred w.pending))

/-- JNI `ExceptionClear`: afterwards no exception is pending. -/
def ExceptionClear (w : State) : State :=
  { emit w .ExceptionClear with pending := 0 }

/-- JNI `NewGlobalRef`: the runtime chooses the returned reference. -/
def NewGlobalRef (jvm : JVM) (w : State) (obj : Ref) : Ref × State :=
  let r := jvm.newGlobalRef w.trace obj
  (r.1, raise (emit w (.NewGlobalRef obj r.1)) r.2)

/-- JNI `DeleteLocalRef`: it returns nothing and raises nothing. -/
def DeleteLocalRef (w : State) (obj : Ref) : State :=
  emit w (.DeleteLocalRef obj)

/-- JNI `GetStaticMethodID`: the runtime chooses the method ID and the exception raised. -/
def GetStaticMethodID (jvm : JVM) (w : State) (cls : Ref) (name sig : String) : Ref × State :=
  let r := jvm.getStaticMethodID w.trace cls name sig
  (r.1, raise (emit w (.GetStaticMethodID cls name sig r.1)) r.2)

/-- JNI `NewStringUTF`: the runtime chooses the returned string reference. -/
def NewStringUTF (jvm : JVM) (w : State) (bytes : String) : Ref × State :=
  let r := jvm.newStringUTF w.trace bytes
  (r.1, raise (emit w (.NewStringUTF bytes r.1)) r.2)

/-- JNI `CallStaticVoidMethod` with the five arguments of the managed `log` method: the
runtime chooses the exception the managed method leaves pending. -/
def CallStaticVoidMethod (jvm : JVM) (w : State) (cls mid : Ref) (level : Int)
    (jTag jMethodName jMsg throwable : Ref) : State :=
  raise (emit w (.CallStaticVoidMethod cls mid level jTag jMethodName jMsg throwable))
    (jvm.callStaticVoidMethod w.trace cls mid level jTag jMethodName jMsg throwable)

/-! ## `LogBridge.c` and the macros of `Utils.h` -/

/-- The function `static inline int canLog(int lvl)`. -/
def canLog (lv : LogLevels) (w : State) (lvl : Int) : Int :=
  if lvl > lv.OFF ∧ lvl ≤ lv.ALL ∧ lvl ≤ w.logLevel then 1 else 0

/-- The function `void jLog(JNIEnv* env, log_level_t level, const char* tag, const char* methodName,
const char* msg, jthrowable throwable)`. -/
def jLog (lv : LogLevels) (jvm : JVM) (w : State) (level : Int) (tag methodName msg : String)
    (throwable : Ref) : State :=
  if canLog lv w level = 0 then w else
  let jTag := NewStringUTF jvm w tag
  let jMethodName := NewStringUTF jvm jTag.2 methodName
  let jMsg := NewStringUTF jvm jMethodName.2 msg
  let w1 := CallStaticVoidMethod jvm jMsg.2 jMsg.2.class_Logging jMsg.2.mID_log level
    jTag.1 jMethodName.1 jMsg.1 throwable
  let w2 := DeleteLocalRef w1 jTag.1
  let w3 := DeleteLocalRef w2 jMethodName.1
  let w4 := DeleteLocalRef w3 jMsg.1
  DeleteLocalRef w4 throwable

/-- The macro `LOG_EX(lvl, msg, throwable)`; `file` and `func` are `__FILE_NAME__` and
`__func__` at the place of expansion. -/
def LOG_EX (lv : LogLevels) (jvm : JVM) (w : State) (file func : String) (lvl : Int)
    (msg : String) (throwable : Ref) : State :=
  if w.nativeLoggingEnabled ≠ 0 then jLog lv jvm w lvl file func msg throwable else w

/-- The macro `LOG(lvl, msg)`. -/
def LOG (lv : LogLevels) (jvm : JVM) (w : State) (file func : String) (lvl : Int)
    (msg : String) : State :=
  if w.nativeLoggingEnabled ≠ 0 then jLog lv jvm w lvl file func msg 0 else w

/-- The message literal of `EXC_CHECK_AND_REPORT`. -/
def excMsg : String := "exception occurred"

/-- The macro `EXC_CHECK_AND_REPORT(code)`; `code` is the recovery block, a state transformer. -/
def EXC_CHECK_AND_REPORT (lv : LogLevels) (jvm : JVM) (w : State) (file func : String)
    (code : State → State) : State :=
  let c := ExceptionCheck w
  if c.1 then
    let thrown := ExceptionOccurred c.2
    let w1 := LOG_EX lv jvm thrown.2 file func lv.SEVERE excMsg thrown.1
    let w2 := ExceptionClear w1
    code w2
  else c.2

/-- The value of `__FILE_NAME__` inside `LogBridge.c`. -/
def fileName : String := "LogBridge.c"

/-- The value of `__func__` inside `initNative`. -/
def initFunc : String := "Java_eu_giulianogorgone_fluidswipe_utils_log_Logging_initNative"

/-- The method name passed to `GetStaticMethodID`. -/
def logName : String := "log"

/-- The method signature passed to `GetStaticMethodID`. -/
def logSig : String :=
  "(ILjava/lang/String;Ljava/lang/String;Ljava/lang/String;Ljava/lang/Throwable;)V"

/-- The macro `CHECK_NULL_RET_V(ref, ret)`, that is `if(!ref) return ret;`: the enclosing
function yields `ret` when `ref` is `NULL`, and goes on with `rest` otherwise. -/
def CHECK_NULL_RET_V {α : Type} (ref : Ref) (ret : α) (rest : α) : α :=
  if ref = 0 then ret else rest

/-- The macro `CHECK_EX_NULL_RET_V(ref, ret)`: `EXC_CHECK_AND_REPORT()` with an empty recovery
block, then `CHECK_NULL_RET_V(ref, ret)`.  The macro argument `ref` is an expression, read
after the report; `ret` and `rest` receive the state after the report. -/
def CHECK_EX_NULL_RET_V {α : Type} (lv : LogLevels) (jvm : JVM) (w : State)
    (file func : String) (ref : State → Ref) (ret : State → α) (rest : State → α) : α :=
  let w1 := EXC_CHECK_AND_REPORT lv jvm w file func id
  CHECK_NULL_RET_V (ref w1) (ret w1) (rest w1)

/-- The macro `CHECK_EX_NULL_RET(ref)`, that is `CHECK_EX_NULL_RET_V(ref,)`, in a function
returning `void`: returning yields the current state. -/
def CHECK_EX_NULL_RET (lv : LogLevels) (jvm : JVM) (w : State) (file func : String)
    (ref : State → Ref) (rest : State → State) : State :=
  CHECK_EX_NULL_RET_V lv jvm w file func ref id rest

/-- The function `JNIEXPORT void JNICALL
Java_eu_giulianogorgone_fluidswipe_utils_log_Logging_initNative(JNIEnv* env, jclass class,
jint level)`; `cls` is the parameter `class`. -/
def Java_eu_giulianogorgone_fluidswipe_utils_log_Logging_initNative (lv : LogLevels)
    (jvm : JVM) (w : State) (cls : Ref) (level : Int) : State :=
  CHECK_EX_NULL_RET lv jvm w fileName initFunc (fun _ => cls) fun w1 =>
  let g := NewGlobalRef jvm w1 cls
  let w2 := { g.2 with class_Logging := g.1 }
  let w3 := DeleteLocalRef w2 cls
  let m := GetStaticMethodID jvm w3 w3.class_Logging logName logSig
  let w4 := { m.2 with mID_log := m.1 }
  CHECK_EX_NULL_RET lv jvm w4 fileName initFunc (fun s => s.mID_log) fun w5 =>
  { w5 with logLevel := level, nativeLoggingEnabled := 1 }

/-- The Java-side name of the native method
`Java_eu_giulianogorgone_fluidswipe_utils_log_Logging_initNative`, used in the statements. -/
abbrev initNative (lv : LogLevels) (jvm : JVM) (w : State) (cls : Ref) (level : Int) : State :=
  Java_eu_giulianogorgone_fluidswipe_utils_log_Logging_initNative lv jvm w cls level

/-! ## Executions -/

/-- A call into the bridge: `initNative` from managed code, `jLog` from native code. -/
inductive BridgeCall where
  | initNative (cls : Ref) (level : Int)
  | jLog (level : Int) (tag methodName msg : String) (throwable : Ref)
deriving DecidableEq

/-- One call into the bridge. -/
def step (lv : LogLevels) (jvm : JVM) (w : State) : BridgeCall → State
  | .initNative cls level => initNative lv jvm w cls level
  | .jLog level tag methodName msg throwable => jLog lv jvm w level tag methodName msg throwable

/-- Run a sequence of bridge calls, oldest first. -/
def run (lv : LogLevels) (jvm : JVM) (w : State) : List BridgeCall → State
  | [] => w
  | c :: cs => run lv jvm (step lv jvm w c) cs

/-- The `initNative` call runs to its last statement: the class reference is non-null and
the method ID it stores is non-null. -/
def initNativeSucceeds (lv : LogLevels) (jvm : JVM) (w : State) (cls : Ref) (level : Int) :
    Prop :=
  cls ≠ 0 ∧ (initNative lv jvm w cls level).mID_log ≠ 0

instance (lv : LogLevels) (jvm : JVM) (w : State) (cls : Ref) (level : Int) :
    Decidable (initNativeSucceeds lv jvm w cls level) := by
  unfold initNativeSucceeds; infer_instance

/-- The event is a call of one of the three exception-inspection functions. -/
def isExceptionCall : JniCall → Bool
  | .ExceptionCheck _ => true
  | .ExceptionOccurred _ => true
  | .ExceptionClear => true
  | _ => false

/-- A `CallStaticVoidMethod` event whose class or method ID is `NULL`. -/
def isNullCall : JniCall → Bool
  | .CallStaticVoidMethod cls mid _ _ _ _ _ => cls == 0 || mid == 0
  | _ => false

/-- The event is a `CallStaticVoidMethod`. -/
def isCallStaticVoidMethod : JniCall → Bool
  | .CallStaticVoidMethod _ _ _ _ _ _ _ => true
  | _ => false

/-- The event is a `NewStringUTF`. -/
def isNewStringUTF : JniCall → Bool
  | .NewStringUTF _ _ => true
  | _ => false

/-- The event is a `NewGlobalRef`. -/
def isNewGlobalRef : JniCall → Bool
  | .NewGlobalRef _ _ => true
  | _ => false

/-- The event is a `GetStaticMethodID`. -/
def isGetStaticMethodID : JniCall → Bool
  | .GetStaticMethodID _ _ _ _ => true
  | _ => false

/-- The event is a `DeleteGlobalRef`. -/
def isDeleteGlobalRef : JniCall → Bool
  | .DeleteGlobalRef _ => true
  | _ => false

/-! ## Sample environments -/

/-- Sample level constants, in the order the comparison of `canLog` expects
(`OFF` lowest, `ALL` highest). -/
def demoLevels : LogLevels := { OFF := 0, SEVERE := 1, ALL := 7 }

/-- A runtime in which the global reference of local reference `r` is `r + 100` and every
class has the `log` method, with method ID `cls + 6`, except the class whose global reference
is `102`: resolving on it returns `NULL` and raises exception `9`.  With `throws = true` the
managed `log` method raises exception `55`. -/
def demoJVM (throws : Bool) : JVM :=
  { newGlobalRef := fun _ obj => (obj + 100, 0),
    getStaticMethodID := fun _ cls _ _ => if cls = 102 then (0, 9) else (cls + 6, 0),
    newStringUTF := fun h _ => (1000 + h.length, 0),
    callStaticVoidMethod := fun _ _ _ _ _ _ _ _ => if throws then 55 else 0 }

/-- The JNI calls issued between state `w` and a later state `w2` (every operation of the
model only appends to the trace). -/
def issued (w w2 : State) : List JniCall :=
  w2.trace.drop w.trace.length

/-! ## Auxiliary definitions: expected call lists and intermediate states -/

/-- The three strings `jLog` creates, in order, as the runtime answers them from state `w`. -/
def jLogStrings (jvm : JVM) (w : State) (tag methodName msg : String) : Ref × Ref × Ref :=
  let jTag := (jvm.newStringUTF w.trace tag).1
  let jMethodName := (jvm.newStringUTF (w.trace ++ [.NewStringUTF tag jTag]) methodName).1
  let jMsg := (jvm.newStringUTF
    (w.trace ++ [.NewStringUTF tag jTag, .NewStringUTF methodName jMethodName]) msg).1
  (jTag, jMethodName, jMsg)

/-- The JNI calls of a forwarding `jLog`, given the three created strings. -/
def forwardCalls (w : State) (level : Int) (tag methodName msg : String) (throwable : Ref)
    (s : Ref × Ref × Ref) : List JniCall :=
  [.NewStringUTF tag s.1, .NewStringUTF methodName s.2.1, .NewStringUTF msg s.2.2,
   .CallStaticVoidMethod w.class_Logging w.mID_log level s.1 s.2.1 s.2.2 throwable,
   .DeleteLocalRef s.1, .DeleteLocalRef s.2.1, .DeleteLocalRef s.2.2,
   .DeleteLocalRef throwable]

/-- The state in which `jLog` issues `CallStaticVoidMethod`: after the three `NewStringUTF`. -/
def beforeCall (jvm : JVM) (w : State) (tag methodName msg : String) : State :=
  (NewStringUTF jvm (NewStringUTF jvm (NewStringUTF jvm w tag).2 methodName).2 msg).2

/-- The exception the managed `log` method raises in the call `jLog` makes from `w`. -/
def callOutcome (jvm : JVM) (w : State) (level : Int) (tag methodName msg : String)
    (throwable : Ref) : Ref :=
  let s := jLogStrings jvm w tag methodName msg
  jvm.callStaticVoidMethod
    (w.trace ++ [.NewStringUTF tag s.1, .NewStringUTF methodName s.2.1, .NewStringUTF msg s.2.2])
    w.class_Logging w.mID_log level s.1 s.2.1 s.2.2 throwable

/-- The state in which `EXC_CHECK_AND_REPORT` reaches `LOG_EX` when an exception is pending. -/
def afterOccurred (w : State) : State :=
  emit (emit w (.ExceptionCheck true)) (.ExceptionOccurred w.pending)

/-- The JNI calls expected of `EXC_CHECK_AND_REPORT` up to the recovery block. -/
def reportCalls (lv : LogLevels) (jvm : JVM) (w : State) (file func : String) : List JniCall :=
  if w.pending = 0 then [.ExceptionCheck false]
  else
    [.ExceptionCheck true, .ExceptionOccurred w.pending] ++
    (if w.nativeLoggingEnabled ≠ 0 ∧ canLog lv w lv.SEVERE ≠ 0 then
      forwardCalls w lv.SEVERE file func excMsg w.pending
        (jLogStrings jvm (afterOccurred w) file func excMsg)
     else []) ++
    [.ExceptionClear]

/-- The state `EXC_CHECK_AND_REPORT` hands to its recovery block when an exception is pending. -/
def reported (lv : LogLevels) (jvm : JVM) (w : State) (file func : String) : State :=
  ExceptionClear (LOG_EX lv jvm (afterOccurred w) file func lv.SEVERE excMsg w.pending)

/-- The state of `initNative` after the assignment to `mID_log` (line 33), for a non-null
class reference. -/
def initResolve (lv : LogLevels) (jvm : JVM) (w : State) (cls : Ref) : State :=
  let w1 := EXC_CHECK_AND_REPORT lv jvm w fileName initFunc id
  let g := NewGlobalRef jvm w1 cls
  let w2 := { g.2 with class_Logging := g.1 }
  let w3 := DeleteLocalRef w2 cls
  let m := GetStaticMethodID jvm w3 w3.class_Logging logName logSig
  { m.2 with mID_log := m.1 }

/-- The three JNI calls of lines 31 to 33 of `initNative`. -/
def resolveCalls (cls g m : Ref) : List JniCall :=
  [.NewGlobalRef cls g, .DeleteLocalRef cls, .GetStaticMethodID g logName logSig m]

/-- The JNI calls expected of one `initNative` call made in state `w`. -/
def initCalls (lv : LogLevels) (jvm : JVM) (w : State) (cls : Ref) : List JniCall :=
  reportCalls lv jvm w fileName initFunc ++
    (if cls = 0 then []
     else resolveCalls cls (initResolve lv jvm w cls).class_Logging
            (initResolve lv jvm w cls).mID_log ++
          reportCalls lv jvm (initResolve lv jvm w cls) fileName initFunc)

/-- The state of a forwarding `jLog` right after its `CallStaticVoidMethod` (line 44). -/
def afterCall (jvm : JVM) (w : State) (level : Int) (tag methodName msg : String)
    (throwable : Ref) : State :=
  let jTag := NewStringUTF jvm w tag
  let jMethodName := NewStringUTF jvm jTag.2 methodName
  let jMsg := NewStringUTF jvm jMethodName.2 msg
  CallStaticVoidMethod jvm jMsg.2 jMsg.2.class_Logging jMsg.2.mID_log level
    jTag.1 jMethodName.1 jMsg.1 throwable

/-- The answer of the runtime (method ID, raised exception) to the `GetStaticMethodID` call
of an `initNative` made in state `w` with the non-null class reference `cls`. -/
def resolveOutcome (lv : LogLevels) (jvm : JVM) (w : State) (cls : Ref) : Ref × Ref :=
  let hist := w.trace ++ reportCalls lv jvm w fileName initFunc
  let g := (jvm.newGlobalRef hist cls).1
  jvm.getStaticMethodID (hist ++ [.NewGlobalRef cls g, .DeleteLocalRef cls]) g logName logSig

/-- The runtime never answers `NULL` to `NewGlobalRef` on a non-null reference. -/
def globalRefsNonNull (jvm : JVM) : Prop :=
  ∀ (hist : List JniCall) (obj : Ref), obj ≠ 0 → (jvm.newGlobalRef hist obj).1 ≠ 0

/-- Along the calls `calls` made from state `w`, every `initNative` call made with a non-null
class while `nativeLoggingEnabled` is already nonzero succeeds. -/
def reinitOk (lv : LogLevels) (jvm : JVM) : State → List BridgeCall → Bool
  | _, [] => true
  | w, .initNative cls level :: cs =>
    decide (w.nativeLoggingEnabled ≠ 0 → cls ≠ 0 → initNativeSucceeds lv jvm w cls level) &&
      reinitOk lv jvm (initNative lv jvm w cls level) cs
  | w, .jLog level tag methodName msg throwable :: cs =>
    reinitOk lv jvm (jLog lv jvm w level tag methodName msg throwable) cs

/-- A runtime whose `NewGlobalRef` fails (it returns `NULL`) and whose `GetStaticMethodID`
answers method ID `7` all the same. -/
def nullGlobalJVM : JVM :=
  { newGlobalRef := fun _ _ => (0, 0),
    getStaticMethodID := fun _ _ _ _ => (7, 0),
    newStringUTF := fun h _ => (1000 + h.length, 0),
    callStaticVoidMethod := fun _ _ _ _ _ _ _ _ => 0 }

/-- The invariant of disciplined executions: the flag is clear only while the threshold is
`OFF`; a set flag comes with non-null handles; no recorded `CallStaticVoidMethod` has a null
class or method ID. -/
def Inv (lv : LogLevels) (w : State) : Prop :=
  (w.nativeLoggingEnabled = 0 → w.logLevel = lv.OFF) ∧
  (w.nativeLoggingEnabled ≠ 0 → w.class_Logging ≠ 0 ∧ w.mID_log ≠ 0) ∧
  (∀ c ∈ w.trace, isNullCall c = false)

/-! ## Field lemmas for the JNI primitives -/

@[simp]
theorem emit_trace (w : State) (c : JniCall) : (emit w c).trace = w.trace ++ [c] := rfl
@[simp]
theorem emit_pending (w : State) (c : JniCall) : (emit w c).pending = w.pending := rfl
@[simp]
theorem emit_class_Logging (w : State) (c : JniCall) :
    (emit w c).class_Logging = w.class_Logging := rfl
@[simp]
theorem emit_mID_log (w : State) (c : JniCall) : (emit w c).mID_log = w.mID_log := rfl
@[simp]
theorem emit_logLevel (w : State) (c : JniCall) : (emit w c).logLevel = w.logLevel := rfl
@[simp]
theorem emit_nativeLoggingEnabled (w : State) (c : JniCall) :
    (emit w c).nativeLoggingEnabled = w.nativeLoggingEnabled := rfl

@[simp]
theorem raise_trace (w : State) (e : Ref) : (raise w e).trace = w.trace := by
  unfold raise; split <;> rfl
@[simp]
theorem raise_class_Logging (w : State) (e : Ref) :
    (raise w e).class_Logging = w.class_Logging := by
  unfold raise; split <;> rfl
@[simp]
theorem raise_mID_log (w : State) (e : Ref) : (raise w e).mID_log = w.mID_log := by
  unfold raise; split <;> rfl
@[simp]
theorem raise_logLevel (w : State) (e : Ref) : (raise w e).logLevel = w.logLevel := by
  unfold raise; split <;> rfl
@[simp]
theorem raise_nativeLoggingEnabled (w : State) (e : Ref) :
    (raise w e).nativeLoggingEnabled = w.nativeLoggingEnabled := by
  unfold raise; split <;> rfl
theorem raise_pending (w : State) (e : Ref) :
    (raise w e).pending = if e = 0 then w.pending else e := by
  unfold raise; split <;> rfl

@[simp]
theorem ExceptionClear_trace (w : State) :
    (ExceptionClear w).trace = w.trace ++ [.ExceptionClear] := rfl
@[simp]
theorem ExceptionClear_pending (w : State) : (ExceptionClear w).pending = 0 := rfl
@[simp]
theorem ExceptionClear_class_Logging (w : State) :
    (ExceptionClear w).class_Logging = w.class_Logging := rfl
@[simp]
theorem ExceptionClear_mID_log (w : State) :
    (ExceptionClear w).mID_log = w.mID_log := rfl
@[simp]
theorem ExceptionClear_logLevel (w : State) :
    (ExceptionClear w).logLevel = w.logLevel := rfl
@[simp]
theorem ExceptionClear_nativeLoggingEnabled (w : State) :
    (ExceptionClear w).nativeLoggingEnabled = w.nativeLoggingEnabled := rfl

/-! ## `canLog` and `jLog` -/

theorem canLog_eq_zero_iff (lv : LogLevels) (w : State) (lvl : Int) :
    canLog lv w lvl = 0 ↔ ¬ (lv.OFF < lvl ∧ lvl ≤ lv.ALL ∧ lvl ≤ w.logLevel) := by
  unfold canLog
  split <;> simp_all

theorem canLog_ne_zero_iff (lv : LogLevels) (w : State) (lvl : Int) :
    canLog lv w lvl ≠ 0 ↔ (lv.OFF < lvl ∧ lvl ≤ lv.ALL ∧ lvl ≤ w.logLevel) := by
  rw [Ne, canLog_eq_zero_iff, not_not]

theorem canLog_congr (lv : LogLevels) (w w2 : State) (lvl : Int)
    (h : w2.logLevel = w.logLevel) : canLog lv w2 lvl = canLog lv w lvl := by
  unfold canLog; rw [h]

theorem jLog_of_not_canLog (lv : LogLevels) (jvm : JVM) (w : State) (level : Int)
    (tag methodName msg : String) (throwable : Ref) (h : canLog lv w level = 0) :
    jLog lv jvm w level tag methodName msg throwable = w := by
  unfold jLog; rw [if_pos h]

theorem jLog_trace_of_canLog (lv : LogLevels) (jvm : JVM) (w : State) (level : Int)
    (tag methodName msg : String) (throwable : Ref) (h : canLog lv w level ≠ 0) :
    (jLog lv jvm w level tag methodName msg throwable).trace =
      w.trace ++ forwardCalls w level tag methodName msg throwable
        (jLogStrings jvm w tag methodName msg) := by
  unfold jLog; rw [if_neg h]
  simp [NewStringUTF, CallStaticVoidMethod, DeleteLocalRef, forwardCalls, jLogStrings]

theorem jLog_class_Logging (lv : LogLevels) (jvm : JVM) (w : State) (level : Int)
    (tag methodName msg : String) (throwable : Ref) :
    (jLog lv jvm w level tag methodName msg throwable).class_Logging = w.class_Logging := by
  unfold jLog; split
  · rfl
  · simp [NewStringUTF, CallStaticVoidMethod, DeleteLocalRef]

theorem jLog_mID_log (lv : LogLevels) (jvm : JVM) (w : State) (level : Int)
    (tag methodName msg : String) (throwable : Ref) :
    (jLog lv jvm w level tag methodName msg throwable).mID_log = w.mID_log := by
  unfold jLog; split
  · rfl
  · simp [NewStringUTF, CallStaticVoidMethod, DeleteLocalRef]

theorem jLog_logLevel (lv : LogLevels) (jvm : JVM) (w : State) (level : Int)
    (tag methodName msg : String) (throwable : Ref) :
    (jLog lv jvm w level tag methodName msg throwable).logLevel = w.logLevel := by
  unfold jLog; split
  · rfl
  · simp [NewStringUTF, CallStaticVoidMethod, DeleteLocalRef]

theorem jLog_nativeLoggingEnabled (lv : LogLevels) (jvm : JVM) (w : State) (level : Int)
    (tag methodName msg : String) (throwable : Ref) :
    (jLog lv jvm w level tag methodName msg throwable).nativeLoggingEnabled =
      w.nativeLoggingEnabled := by
  unfold jLog; split
  · rfl
  · simp [NewStringUTF, CallStaticVoidMethod, DeleteLocalRef]

theorem jLog_pending_of_canLog (lv : LogLevels) (jvm : JVM) (w : State) (level : Int)
    (tag methodName msg : String) (throwable : Ref) (h : canLog lv w level ≠ 0) :
    (jLog lv jvm w level tag methodName msg throwable).pending =
      if callOutcome jvm w level tag methodName msg throwable = 0
      then (beforeCall jvm w tag methodName msg).pending
      else callOutcome jvm w level tag methodName msg throwable := by
  unfold jLog; rw [if_neg h]
  simp [NewStringUTF, CallStaticVoidMethod, DeleteLocalRef, raise_pending, callOutcome,
    jLogStrings, beforeCall]

/-! ## `EXC_CHECK_AND_REPORT` -/

theorem issued_of_trace_eq (w w2 : State) (l : List JniCall) (h : w2.trace = w.trace ++ l) :
    issued w w2 = l := by
  unfold issued; rw [h]; exact List.drop_left _ _

theorem LOG_EX_trace (lv : LogLevels) (jvm : JVM) (w : State) (file func : String) (lvl : Int)
    (msg : String) (throwable : Ref) :
    (LOG_EX lv jvm w file func lvl msg throwable).trace = w.trace ++
      (if w.nativeLoggingEnabled ≠ 0 ∧ canLog lv w lvl ≠ 0 then
        forwardCalls w lvl file func msg throwable (jLogStrings jvm w file func msg)
       else []) := by
  unfold LOG_EX
  by_cases he : w.nativeLoggingEnabled ≠ 0
  · by_cases hc : canLog lv w lvl ≠ 0
    · rw [if_pos he, if_pos ⟨he, hc⟩, jLog_trace_of_canLog _ _ _ _ _ _ _ _ hc]
    · rw [if_pos he, if_neg (fun h => hc h.2), jLog_of_not_canLog _ _ _ _ _ _ _ _ (not_not.mp hc)]
      simp
  · rw [if_neg he, if_neg (fun h => he h.1)]; simp

theorem LOG_EX_class_Logging (lv : LogLevels) (jvm : JVM) (w : State) (file func : String)
    (lvl : Int) (msg : String) (throwable : Ref) :
    (LOG_EX lv jvm w file func lvl msg throwable).class_Logging = w.class_Logging := by
  unfold LOG_EX; split
  · exact jLog_class_Logging ..
  · rfl

theorem LOG_EX_mID_log (lv : LogLevels) (jvm : JVM) (w : State) (file func : String)
    (lvl : Int) (msg : String) (throwable : Ref) :
    (LOG_EX lv jvm w file func lvl msg throwable).mID_log = w.mID_log := by
  unfold LOG_EX; split
  · exact jLog_mID_log ..
  · rfl

theorem LOG_EX_logLevel (lv : LogLevels) (jvm : JVM) (w : State) (file func : String)
    (lvl : Int) (msg : String) (throwable : Ref) :
    (LOG_EX lv jvm w file func lvl msg throwable).logLevel = w.logLevel := by
  unfold LOG_EX; split
  · exact jLog_logLevel ..
  · rfl

theorem LOG_EX_nativeLoggingEnabled (lv : LogLevels) (jvm : JVM) (w : State)
    (file func : String) (lvl : Int) (msg : String) (throwable : Ref) :
    (LOG_EX lv jvm w file func lvl msg throwable).nativeLoggingEnabled =
      w.nativeLoggingEnabled := by
  unfold LOG_EX; split
  · exact jLog_nativeLoggingEnabled ..
  · rfl

theorem EXC_of_pending (lv : LogLevels) (jvm : JVM) (w : State) (file func : String)
    (code : State → State) (h : w.pending ≠ 0) :
    EXC_CHECK_AND_REPORT lv jvm w file func code = code (reported lv jvm w file func) := by
  simp [EXC_CHECK_AND_REPORT, ExceptionCheck, ExceptionOccurred, h, reported, afterOccurred]

theorem EXC_of_not_pending (lv : LogLevels) (jvm : JVM) (w : State) (file func : String)
    (code : State → State) (h : w.pending = 0) :
    EXC_CHECK_AND_REPORT lv jvm w file func code = emit w (.ExceptionCheck false) := by
  simp [EXC_CHECK_AND_REPORT, ExceptionCheck, h]

theorem reported_trace (lv : LogLevels) (jvm : JVM) (w : State) (file func : String)
    (h : w.pending ≠ 0) :
    (reported lv jvm w file func).trace = w.trace ++ reportCalls lv jvm w file func := by
  unfold reported reportCalls
  rw [if_neg h, ExceptionClear_trace, LOG_EX_trace]
  have hc : canLog lv (afterOccurred w) lv.SEVERE = canLog lv w lv.SEVERE :=
    canLog_congr _ _ _ _ rfl
  rw [hc]
  simp [afterOccurred, forwardCalls]

theorem EXC_id_trace (lv : LogLevels) (jvm : JVM) (w : State) (file func : String) :
    (EXC_CHECK_AND_REPORT lv jvm w file func id).trace =
      w.trace ++ reportCalls lv jvm w file func := by
  by_cases h : w.pending = 0
  · rw [EXC_of_not_pending _ _ _ _ _ _ h]; simp [reportCalls, h]
  · rw [EXC_of_pending _ _ _ _ _ _ h]; exact reported_trace _ _ _ _ _ h

theorem EXC_id_pending (lv : LogLevels) (jvm : JVM) (w : State) (file func : String) :
    (EXC_CHECK_AND_REPORT lv jvm w file func id).pending = 0 := by
  by_cases h : w.pending = 0
  · rw [EXC_of_not_pending _ _ _ _ _ _ h]; simpa using h
  · rw [EXC_of_pending _ _ _ _ _ _ h]; rfl

theorem EXC_id_class_Logging (lv : LogLevels) (jvm : JVM) (w : State) (file func : String) :
    (EXC_CHECK_AND_REPORT lv jvm w file func id).class_Logging = w.class_Logging := by
  by_cases h : w.pending = 0
  · rw [EXC_of_not_pending _ _ _ _ _ _ h]; rfl
  · rw [EXC_of_pending _ _ _ _ _ _ h]
    simp [reported, LOG_EX_class_Logging, afterOccurred]

theorem EXC_id_mID_log (lv : LogLevels) (jvm : JVM) (w : State) (file func : String) :
    (EXC_CHECK_AND_REPORT lv jvm w file func id).mID_log = w.mID_log := by
  by_cases h : w.pending = 0
  · rw [EXC_of_not_pending _ _ _ _ _ _ h]; rfl
  · rw [EXC_of_pending _ _ _ _ _ _ h]
    simp [reported, LOG_EX_mID_log, afterOccurred]

theorem EXC_id_logLevel (lv : LogLevels) (jvm : JVM) (w : State) (file func : String) :
    (EXC_CHECK_AND_REPORT lv jvm w file func id).logLevel = w.logLevel := by
  by_cases h : w.pending = 0
  · rw [EXC_of_not_pending _ _ _ _ _ _ h]; rfl
  · rw [EXC_of_pending _ _ _ _ _ _ h]
    simp [reported, LOG_EX_logLevel, afterOccurred]

theorem EXC_id_nativeLoggingEnabled (lv : LogLevels) (jvm : JVM) (w : State)
    (file func : String) :
    (EXC_CHECK_AND_REPORT lv jvm w file func id).nativeLoggingEnabled =
      w.nativeLoggingEnabled := by
  by_cases h : w.pending = 0
  · rw [EXC_of_not_pending _ _ _ _ _ _ h]; rfl
  · rw [EXC_of_pending _ _ _ _ _ _ h]
    simp [reported, LOG_EX_nativeLoggingEnabled, afterOccurred]

/-! ## `initNative` -/

theorem initNative_eq (lv : LogLevels) (jvm : JVM) (w : State) (cls : Ref) (level : Int) :
    initNative lv jvm w cls level =
      if cls = 0 then EXC_CHECK_AND_REPORT lv jvm w fileName initFunc id
      else if (EXC_CHECK_AND_REPORT lv jvm (initResolve lv jvm w cls) fileName initFunc id).mID_log
          = 0
        then EXC_CHECK_AND_REPORT lv jvm (initResolve lv jvm w cls) fileName initFunc id
        else { EXC_CHECK_AND_REPORT lv jvm (initResolve lv jvm w cls) fileName initFunc id with
                logLevel := level, nativeLoggingEnabled := 1 } := rfl

theorem initResolve_trace (lv : LogLevels) (jvm : JVM) (w : State) (cls : Ref) :
    (initResolve lv jvm w cls).trace =
      w.trace ++ reportCalls lv jvm w fileName initFunc ++
        resolveCalls cls (initResolve lv jvm w cls).class_Logging
          (initResolve lv jvm w cls).mID_log := by
  simp [initResolve, NewGlobalRef, DeleteLocalRef, GetStaticMethodID, resolveCalls,
    EXC_id_trace]

theorem initResolve_class_Logging (lv : LogLevels) (jvm : JVM) (w : State) (cls : Ref) :
    (initResolve lv jvm w cls).class_Logging =
      (jvm.newGlobalRef (w.trace ++ reportCalls lv jvm w fileName initFunc) cls).1 := by
  simp [initResolve, NewGlobalRef, DeleteLocalRef, GetStaticMethodID, EXC_id_trace]

theorem initResolve_logLevel (lv : LogLevels) (jvm : JVM) (w : State) (cls : Ref) :
    (initResolve lv jvm w cls).logLevel = w.logLevel := by
  simp [initResolve, NewGlobalRef, DeleteLocalRef, GetStaticMethodID, EXC_id_logLevel]

theorem initResolve_nativeLoggingEnabled (lv : LogLevels) (jvm : JVM) (w : State) (cls : Ref) :
    (initResolve lv jvm w cls).nativeLoggingEnabled = w.nativeLoggingEnabled := by
  simp [initResolve, NewGlobalRef, DeleteLocalRef, GetStaticMethodID,
    EXC_id_nativeLoggingEnabled]

theorem initNative_of_null (lv : LogLevels) (jvm : JVM) (w : State) (level : Int) :
    initNative lv jvm w 0 level = EXC_CHECK_AND_REPORT lv jvm w fileName initFunc id := by
  rw [initNative_eq, if_pos rfl]

theorem initNative_of_unresolved (lv : LogLevels) (jvm : JVM) (w : State) (cls : Ref)
    (level : Int) (hc : cls ≠ 0) (hm : (initResolve lv jvm w cls).mID_log = 0) :
    initNative lv jvm w cls level =
      EXC_CHECK_AND_REPORT lv jvm (initResolve lv jvm w cls) fileName initFunc id := by
  rw [initNative_eq, if_neg hc, if_pos (by rw [EXC_id_mID_log]; exact hm)]

theorem initNative_of_resolved (lv : LogLevels) (jvm : JVM) (w : State) (cls : Ref)
    (level : Int) (hc : cls ≠ 0) (hm : (initResolve lv jvm w cls).mID_log ≠ 0) :
    initNative lv jvm w cls level =
      { EXC_CHECK_AND_REPORT lv jvm (initResolve lv jvm w cls) fileName initFunc id with
          logLevel := level, nativeLoggingEnabled := 1 } := by
  rw [initNative_eq, if_neg hc, if_neg (by rw [EXC_id_mID_log]; exact hm)]

theorem initNative_mID_log (lv : LogLevels) (jvm : JVM) (w : State) (cls : Ref) (level : Int) :
    (initNative lv jvm w cls level).mID_log =
      if cls = 0 then w.mID_log else (initResolve lv jvm w cls).mID_log := by
  by_cases hc : cls = 0
  · subst hc; rw [initNative_of_null, if_pos rfl, EXC_id_mID_log]
  · rw [if_neg hc]
    by_cases hm : (initResolve lv jvm w cls).mID_log = 0
    · rw [initNative_of_unresolved _ _ _ _ _ hc hm, EXC_id_mID_log]
    · rw [initNative_of_resolved _ _ _ _ _ hc hm]
      show (EXC_CHECK_AND_REPORT lv jvm (initResolve lv jvm w cls) fileName initFunc id).mID_log
        = _
      rw [EXC_id_mID_log]

theorem initNativeSucceeds_iff (lv : LogLevels) (jvm : JVM) (w : State) (cls : Ref)
    (level : Int) :
    initNativeSucceeds lv jvm w cls level ↔ cls ≠ 0 ∧ (initResolve lv jvm w cls).mID_log ≠ 0 := by
  unfold initNativeSucceeds
  constructor
  · rintro ⟨hc, hm⟩
    rw [initNative_mID_log, if_neg hc] at hm
    exact ⟨hc, hm⟩
  · rintro ⟨hc, hm⟩
    rw [initNative_mID_log, if_neg hc]
    exact ⟨hc, hm⟩

theorem initNative_class_Logging (lv : LogLevels) (jvm : JVM) (w : State) (cls : Ref)
    (level : Int) :
    (initNative lv jvm w cls level).class_Logging =
      if cls = 0 then w.class_Logging else (initResolve lv jvm w cls).class_Logging := by
  by_cases hc : cls = 0
  · subst hc; rw [initNative_of_null, if_pos rfl, EXC_id_class_Logging]
  · rw [if_neg hc]
    by_cases hm : (initResolve lv jvm w cls).mID_log = 0
    · rw [initNative_of_unresolved _ _ _ _ _ hc hm, EXC_id_class_Logging]
    · rw [initNative_of_resolved _ _ _ _ _ hc hm]
      show (EXC_CHECK_AND_REPORT lv jvm (initResolve lv jvm w cls) fileName
        initFunc id).class_Logging = _
      rw [EXC_id_class_Logging]

theorem initNative_logLevel (lv : LogLevels) (jvm : JVM) (w : State) (cls : Ref) (level : Int) :
    (initNative lv jvm w cls level).logLevel =
      if initNativeSucceeds lv jvm w cls level then level else w.logLevel := by
  by_cases hc : cls = 0
  · subst hc; rw [initNative_of_null, if_neg (fun h => h.1 rfl), EXC_id_logLevel]
  · by_cases hm : (initResolve lv jvm w cls).mID_log = 0
    · rw [initNative_of_unresolved _ _ _ _ _ hc hm,
        if_neg (fun h => ((initNativeSucceeds_iff _ _ _ _ _).1 h).2 hm), EXC_id_logLevel,
        initResolve_logLevel]
    · rw [initNative_of_resolved _ _ _ _ _ hc hm,
        if_pos ((initNativeSucceeds_iff _ _ _ _ _).2 ⟨hc, hm⟩)]

theorem initNative_nativeLoggingEnabled (lv : LogLevels) (jvm : JVM) (w : State) (cls : Ref)
    (level : Int) :
    (initNative lv jvm w cls level).nativeLoggingEnabled =
      if initNativeSucceeds lv jvm w cls level then 1 else w.nativeLoggingEnabled := by
  by_cases hc : cls = 0
  · subst hc
    rw [initNative_of_null, if_neg (fun h => h.1 rfl), EXC_id_nativeLoggingEnabled]
  · by_cases hm : (initResolve lv jvm w cls).mID_log = 0
    · rw [initNative_of_unresolved _ _ _ _ _ hc hm,
        if_neg (fun h => ((initNativeSucceeds_iff _ _ _ _ _).1 h).2 hm),
        EXC_id_nativeLoggingEnabled, initResolve_nativeLoggingEnabled]
    · rw [initNative_of_resolved _ _ _ _ _ hc hm,
        if_pos ((initNativeSucceeds_iff _ _ _ _ _).2 ⟨hc, hm⟩)]

theorem initNative_pending (lv : LogLevels) (jvm : JVM) (w : State) (cls : Ref) (level : Int) :
    (initNative lv jvm w cls level).pending = 0 := by
  by_cases hc : cls = 0
  · subst hc; rw [initNative_of_null, EXC_id_pending]
  · by_cases hm : (initResolve lv jvm w cls).mID_log = 0
    · rw [initNative_of_unresolved _ _ _ _ _ hc hm, EXC_id_pending]
    · rw [initNative_of_resolved _ _ _ _ _ hc hm]
      show (EXC_CHECK_AND_REPORT lv jvm (initResolve lv jvm w cls) fileName initFunc id).pending
        = _
      rw [EXC_id_pending]

theorem initNative_trace (lv : LogLevels) (jvm : JVM) (w : State) (cls : Ref) (level : Int) :
    (initNative lv jvm w cls level).trace = w.trace ++ initCalls lv jvm w cls := by
  unfold initCalls
  by_cases hc : cls = 0
  · subst hc; rw [initNative_of_null, if_pos rfl, EXC_id_trace]; simp
  · rw [if_neg hc]
    by_cases hm : (initResolve lv jvm w cls).mID_log = 0
    · rw [initNative_of_unresolved _ _ _ _ _ hc hm, EXC_id_trace, initResolve_trace]
      simp
    · rw [initNative_of_resolved _ _ _ _ _ hc hm]
      show (EXC_CHECK_AND_REPORT lv jvm (initResolve lv jvm w cls) fileName initFunc id).trace
        = _
      rw [EXC_id_trace, initResolve_trace]
      simp

/-! ## Executions: the flag is clear only while the threshold is `OFF` -/

theorem step_nativeLoggingEnabled_eq_zero (lv : LogLevels) (jvm : JVM) (w : State)
    (c : BridgeCall) (hinv : w.nativeLoggingEnabled = 0 → w.logLevel = lv.OFF)
    (h : (step lv jvm w c).nativeLoggingEnabled = 0) : (step lv jvm w c).logLevel = lv.OFF := by
  cases c with
  | initNative cls level =>
    simp only [step] at h ⊢
    rw [initNative_nativeLoggingEnabled] at h
    rw [initNative_logLevel]
    by_cases hs : initNativeSucceeds lv jvm w cls level
    · rw [if_pos hs] at h; exact absurd h (by decide)
    · rw [if_neg hs] at h; rw [if_neg hs]; exact hinv h
  | jLog level tag methodName msg throwable =>
    simp only [step] at h ⊢
    rw [jLog_nativeLoggingEnabled] at h
    rw [jLog_logLevel]; exact hinv h

theorem run_nativeLoggingEnabled_eq_zero (lv : LogLevels) (jvm : JVM) (calls : List BridgeCall) :
    ∀ w : State, (w.nativeLoggingEnabled = 0 → w.logLevel = lv.OFF) →
      (run lv jvm w calls).nativeLoggingEnabled = 0 → (run lv jvm w calls).logLevel = lv.OFF := by
  induction calls with
  | nil => intro w hinv h; exact hinv h
  | cons c cs ih =>
    intro w hinv h
    exact ih (step lv jvm w c) (step_nativeLoggingEnabled_eq_zero lv jvm w c hinv) h

theorem canLog_of_logLevel_OFF (lv : LogLevels) (w : State) (lvl : Int)
    (h : w.logLevel = lv.OFF) : canLog lv w lvl = 0 := by
  rw [canLog_eq_zero_iff, h]
  rintro ⟨h1, _, h3⟩
  exact absurd h1 (not_lt.mpr h3)

/-! ## The claims -/

/-- C1: start from any state with `logLevel = OFF`, such as the initial state of the bridge
(`nativeLoggingEnabled = 0`, `logLevel = OFF`), and run any sequence of `initNative` and `jLog`
calls.  If `nativeLoggingEnabled` is `0` in the state reached, then `logLevel` is still `OFF`
there and a direct `jLog` call with any arguments returns that state unchanged, so it issues
no JNI call. -/
theorem jLog_noop_while_disabled (lv : LogLevels) (jvm : JVM) (w0 : State)
    (calls : List BridgeCall) (level : Int) (tag methodName msg : String) (throwable : Ref)
    (h0l : w0.logLevel = lv.OFF)
    (h : (run lv jvm w0 calls).nativeLoggingEnabled = 0) :
    jLog lv jvm (run lv jvm w0 calls) level tag methodName msg throwable = run lv jvm w0 calls ∧
      issued (run lv jvm w0 calls)
        (jLog lv jvm (run lv jvm w0 calls) level tag methodName msg throwable) = [] ∧
      (run lv jvm w0 calls).logLevel = lv.OFF := by
  have hoff := run_nativeLoggingEnabled_eq_zero lv jvm calls w0 (fun _ => h0l) h
  have hj := jLog_of_not_canLog lv jvm _ level tag methodName msg throwable
    (canLog_of_logLevel_OFF lv _ level hoff)
  refine ⟨hj, ?_, hoff⟩
  rw [hj]; simp [issued]

/-- Witness for C1: after an `initNative` with a null class, an `initNative` whose method
resolution fails and a filtered `jLog`, the flag is still `0` and a further `jLog` at level
`SEVERE` does nothing. -/
theorem jLog_noop_while_disabled_witness :
    (initialState demoLevels 4).logLevel = demoLevels.OFF ∧
    (run demoLevels (demoJVM false) (initialState demoLevels 4)
        [.initNative 0 3, .initNative 2 3, .jLog 2 fileName initFunc excMsg 0]
      ).nativeLoggingEnabled = 0 ∧
    jLog demoLevels (demoJVM false)
        (run demoLevels (demoJVM false) (initialState demoLevels 4)
          [.initNative 0 3, .initNative 2 3, .jLog 2 fileName initFunc excMsg 0])
        1 fileName initFunc excMsg 0
      = run demoLevels (demoJVM false) (initialState demoLevels 4)
          [.initNative 0 3, .initNative 2 3, .jLog 2 fileName initFunc excMsg 0] :=
  ⟨by decide, by decide,
    (jLog_noop_while_disabled demoLevels (demoJVM false) (initialState demoLevels 4)
      [.initNative 0 3, .initNative 2 3, .jLog 2 fileName initFunc excMsg 0]
      1 fileName initFunc excMsg 0 (by decide) (by decide)).1⟩

theorem initNative_succeeds_logLevel (lv : LogLevels) (jvm : JVM) (w : State) (cls : Ref)
    (T : Int) (h : initNativeSucceeds lv jvm w cls T) :
    (initNative lv jvm w cls T).logLevel = T := by
  rw [initNative_logLevel, if_pos h]

theorem initNative_succeeds_nativeLoggingEnabled (lv : LogLevels) (jvm : JVM) (w : State)
    (cls : Ref) (T : Int) (h : initNativeSucceeds lv jvm w cls T) :
    (initNative lv jvm w cls T).nativeLoggingEnabled = 1 := by
  rw [initNative_nativeLoggingEnabled, if_pos h]

/-- C2: after a successful `initNative` with threshold `T`, a `jLog` at a level `L` with
`OFF < L ≤ ALL` and `L ≤ T` issues exactly three `NewStringUTF` (tag, method name, message),
one `CallStaticVoidMethod` on the cached class and method ID with `(L, jTag, jMethodName, jMsg,
throwable)`, and four `DeleteLocalRef` (the three strings, then the throwable); the calls are
the same whatever exception the managed method raises. -/
theorem jLog_forwards_after_init (lv : LogLevels) (jvm : JVM) (w : State) (cls : Ref)
    (T L : Int) (tag methodName msg : String) (throwable : Ref)
    (hinit : initNativeSucceeds lv jvm w cls T)
    (h1 : lv.OFF < L) (h2 : L ≤ lv.ALL) (h3 : L ≤ T) :
    ∃ jTag jMethodName jMsg : Ref,
      (jTag, jMethodName, jMsg) =
        jLogStrings jvm (initNative lv jvm w cls T) tag methodName msg ∧
      (jLog lv jvm (initNative lv jvm w cls T) L tag methodName msg throwable).trace =
        (initNative lv jvm w cls T).trace ++
          [.NewStringUTF tag jTag, .NewStringUTF methodName jMethodName, .NewStringUTF msg jMsg,
           .CallStaticVoidMethod (initNative lv jvm w cls T).class_Logging
              (initNative lv jvm w cls T).mID_log L jTag jMethodName jMsg throwable,
           .DeleteLocalRef jTag, .DeleteLocalRef jMethodName, .DeleteLocalRef jMsg,
           .DeleteLocalRef throwable] ∧
      ∀ raised : List JniCall → Ref → Ref → Int → Ref → Ref → Ref → Ref → Ref,
        (jLog lv { jvm with callStaticVoidMethod := raised } (initNative lv jvm w cls T) L tag
            methodName msg throwable).trace =
          (jLog lv jvm (initNative lv jvm w cls T) L tag methodName msg throwable).trace := by
  have hc : canLog lv (initNative lv jvm w cls T) L ≠ 0 := by
    rw [canLog_ne_zero_iff, initNative_succeeds_logLevel lv jvm w cls T hinit]
    exact ⟨h1, h2, h3⟩
  refine ⟨_, _, _, rfl, ?_, ?_⟩
  · rw [jLog_trace_of_canLog _ _ _ _ _ _ _ _ hc]; rfl
  · intro raised
    rw [jLog_trace_of_canLog _ _ _ _ _ _ _ _ hc, jLog_trace_of_canLog _ _ _ _ _ _ _ _ hc]
    rfl

/-- Witness for C2: level `2` under threshold `3`, with a managed method that raises. -/
theorem jLog_forwards_after_init_witness :
    initNativeSucceeds demoLevels (demoJVM true) (initialState demoLevels 0) 1 3 ∧
    ∃ jTag jMethodName jMsg : Ref,
      (jTag, jMethodName, jMsg) =
        jLogStrings (demoJVM true)
          (initNative demoLevels (demoJVM true) (initialState demoLevels 0) 1 3)
          fileName logName excMsg ∧
      (jLog demoLevels (demoJVM true)
          (initNative demoLevels (demoJVM true) (initialState demoLevels 0) 1 3) 2
          fileName logName excMsg 5).trace =
        (initNative demoLevels (demoJVM true) (initialState demoLevels 0) 1 3).trace ++
          [.NewStringUTF fileName jTag, .NewStringUTF logName jMethodName,
           .NewStringUTF excMsg jMsg,
           .CallStaticVoidMethod
              (initNative demoLevels (demoJVM true) (initialState demoLevels 0) 1 3).class_Logging
              (initNative demoLevels (demoJVM true) (initialState demoLevels 0) 1 3).mID_log
              2 jTag jMethodName jMsg 5,
           .DeleteLocalRef jTag, .DeleteLocalRef jMethodName, .DeleteLocalRef jMsg,
           .DeleteLocalRef 5] ∧
      ∀ raised : List JniCall → Ref → Ref → Int → Ref → Ref → Ref → Ref → Ref,
        (jLog demoLevels { demoJVM true with callStaticVoidMethod := raised }
            (initNative demoLevels (demoJVM true) (initialState demoLevels 0) 1 3) 2
            fileName logName excMsg 5).trace =
          (jLog demoLevels (demoJVM true)
            (initNative demoLevels (demoJVM true) (initialState demoLevels 0) 1 3) 2
            fileName logName excMsg 5).trace :=
  ⟨by decide, jLog_forwards_after_init demoLevels (demoJVM true) (initialState demoLevels 0) 1 3 2
    fileName logName excMsg 5 (by decide) (by decide) (by decide) (by decide)⟩

/-- C3: after a successful `initNative` with threshold `T`, a `jLog` at a level `L` with
`L ≤ OFF` or `L > ALL` or `L > T` returns the state unchanged and issues no JNI call; and
`canLog(L)` is nonzero exactly when `OFF < L`, `L ≤ ALL` and `L ≤ logLevel`. -/
theorem jLog_filtered_after_init (lv : LogLevels) (jvm : JVM) (w : State) (cls : Ref)
    (T L : Int) (tag methodName msg : String) (throwable : Ref)
    (hinit : initNativeSucceeds lv jvm w cls T)
    (hL : L ≤ lv.OFF ∨ lv.ALL < L ∨ T < L) :
    jLog lv jvm (initNative lv jvm w cls T) L tag methodName msg throwable
        = initNative lv jvm w cls T ∧
      issued (initNative lv jvm w cls T)
        (jLog lv jvm (initNative lv jvm w cls T) L tag methodName msg throwable) = [] ∧
      (∀ lvl : Int, canLog lv (initNative lv jvm w cls T) lvl ≠ 0 ↔
        (lv.OFF < lvl ∧ lvl ≤ lv.ALL ∧ lvl ≤ T)) ∧
      (∀ (s : State) (lvl : Int), canLog lv s lvl ≠ 0 ↔
        (lv.OFF < lvl ∧ lvl ≤ lv.ALL ∧ lvl ≤ s.logLevel)) := by
  have hT := initNative_succeeds_logLevel lv jvm w cls T hinit
  have hc : canLog lv (initNative lv jvm w cls T) L = 0 := by
    rw [canLog_eq_zero_iff, hT]
    rintro ⟨a, b, c⟩
    rcases hL with h | h | h
    · exact absurd a (not_lt.mpr h)
    · exact absurd h (not_lt.mpr b)
    · exact absurd h (not_lt.mpr c)
  have hj := jLog_of_not_canLog lv jvm _ L tag methodName msg throwable hc
  refine ⟨hj, ?_, ?_, ?_⟩
  · rw [hj]; simp [issued]
  · intro lvl; rw [canLog_ne_zero_iff, hT]
  · intro s lvl; exact canLog_ne_zero_iff lv s lvl

/-- Witness for C3: level `4` above threshold `3`. -/
theorem jLog_filtered_after_init_witness :
    initNativeSucceeds demoLevels (demoJVM false) (initialState demoLevels 0) 1 3 ∧
    ((4 : Int) ≤ demoLevels.OFF ∨ demoLevels.ALL < 4 ∨ (3 : Int) < 4) ∧
    (jLog demoLevels (demoJVM false)
        (initNative demoLevels (demoJVM false) (initialState demoLevels 0) 1 3) 4
        fileName logName excMsg 0
        = initNative demoLevels (demoJVM false) (initialState demoLevels 0) 1 3 ∧
      issued (initNative demoLevels (demoJVM false) (initialState demoLevels 0) 1 3)
        (jLog demoLevels (demoJVM false)
          (initNative demoLevels (demoJVM false) (initialState demoLevels 0) 1 3) 4
          fileName logName excMsg 0) = [] ∧
      (∀ lvl : Int, canLog demoLevels
          (initNative demoLevels (demoJVM false) (initialState demoLevels 0) 1 3) lvl ≠ 0 ↔
        (demoLevels.OFF < lvl ∧ lvl ≤ demoLevels.ALL ∧ lvl ≤ 3)) ∧
      (∀ (s : State) (lvl : Int), canLog demoLevels s lvl ≠ 0 ↔
        (demoLevels.OFF < lvl ∧ lvl ≤ demoLevels.ALL ∧ lvl ≤ s.logLevel))) :=
  ⟨by decide, by decide,
    jLog_filtered_after_init demoLevels (demoJVM false) (initialState demoLevels 0) 1 3 4
      fileName logName excMsg 0 (by decide) (by decide)⟩

theorem afterCall_pending (jvm : JVM) (w : State) (level : Int) (tag methodName msg : String)
    (throwable : Ref) :
    (afterCall jvm w level tag methodName msg throwable).pending =
      if callOutcome jvm w level tag methodName msg throwable = 0
      then (beforeCall jvm w tag methodName msg).pending
      else callOutcome jvm w level tag methodName msg throwable := by
  simp [afterCall, NewStringUTF, CallStaticVoidMethod, raise_pending, callOutcome,
    jLogStrings, beforeCall]

theorem forwardCalls_no_exception_call (w : State) (level : Int) (tag methodName msg : String)
    (throwable : Ref) (s : Ref × Ref × Ref) :
    ∀ c ∈ forwardCalls w level tag methodName msg throwable s, isExceptionCall c = false := by
  intro c hc
  simp only [forwardCalls, List.mem_cons, List.mem_singleton, List.not_mem_nil, or_false] at hc
  rcases hc with h | h | h | h | h | h | h | h <;> subst h <;> rfl

/-- C7: `jLog` issues no `ExceptionCheck`, `ExceptionOccurred` or `ExceptionClear`; when it
forwards, the pending exception at its return is the one pending right after
`CallStaticVoidMethod`, so an exception raised by the managed method is still pending, and the
four `DeleteLocalRef` have been issued all the same. -/
theorem jLog_leaves_exception_pending (lv : LogLevels) (jvm : JVM) (w : State) (level : Int)
    (tag methodName msg : String) (throwable : Ref) :
    (∀ c ∈ issued w (jLog lv jvm w level tag methodName msg throwable),
        isExceptionCall c = false) ∧
    (canLog lv w level ≠ 0 →
      (jLog lv jvm w level tag methodName msg throwable).pending =
          (afterCall jvm w level tag methodName msg throwable).pending ∧
        (callOutcome jvm w level tag methodName msg throwable ≠ 0 →
          (jLog lv jvm w level tag methodName msg throwable).pending =
            callOutcome jvm w level tag methodName msg throwable) ∧
        issued w (jLog lv jvm w level tag methodName msg throwable) =
          forwardCalls w level tag methodName msg throwable
            (jLogStrings jvm w tag methodName msg)) := by
  constructor
  · by_cases hc : canLog lv w level = 0
    · rw [jLog_of_not_canLog _ _ _ _ _ _ _ _ hc]; simp [issued]
    · rw [issued_of_trace_eq _ _ _ (jLog_trace_of_canLog _ _ _ _ _ _ _ _ hc)]
      exact forwardCalls_no_exception_call _ _ _ _ _ _ _
  · intro hc
    refine ⟨?_, ?_, issued_of_trace_eq _ _ _ (jLog_trace_of_canLog _ _ _ _ _ _ _ _ hc)⟩
    · rw [jLog_pending_of_canLog _ _ _ _ _ _ _ _ hc, afterCall_pending]
    · intro hne
      rw [jLog_pending_of_canLog _ _ _ _ _ _ _ _ hc, if_neg hne]

/-- Witness for C7: a forwarded record whose managed call raises exception `55`. -/
theorem jLog_leaves_exception_pending_witness :
    canLog demoLevels
      (initNative demoLevels (demoJVM true) (initialState demoLevels 0) 1 3) 2 ≠ 0 ∧
    callOutcome (demoJVM true)
      (initNative demoLevels (demoJVM true) (initialState demoLevels 0) 1 3) 2
      fileName logName excMsg 5 ≠ 0 ∧
    (jLog demoLevels (demoJVM true)
      (initNative demoLevels (demoJVM true) (initialState demoLevels 0) 1 3) 2
      fileName logName excMsg 5).pending = 55 :=
  ⟨by decide, by decide,
    (((jLog_leaves_exception_pending demoLevels (demoJVM true)
      (initNative demoLevels (demoJVM true) (initialState demoLevels 0) 1 3) 2
      fileName logName excMsg 5).2 (by decide)).2.1 (by decide)).trans (by decide)⟩

theorem initResolve_mID_log (lv : LogLevels) (jvm : JVM) (w : State) (cls : Ref) :
    (initResolve lv jvm w cls).mID_log = (resolveOutcome lv jvm w cls).1 := by
  simp [initResolve, NewGlobalRef, DeleteLocalRef, GetStaticMethodID, EXC_id_trace,
    resolveOutcome]

theorem initResolve_pending_of_raised (lv : LogLevels) (jvm : JVM) (w : State) (cls : Ref)
    (h : (resolveOutcome lv jvm w cls).2 ≠ 0) :
    (initResolve lv jvm w cls).pending = (resolveOutcome lv jvm w cls).2 := by
  have h2 : (initResolve lv jvm w cls).pending =
      if (resolveOutcome lv jvm w cls).2 = 0
      then (NewGlobalRef jvm (EXC_CHECK_AND_REPORT lv jvm w fileName initFunc id) cls).2.pending
      else (resolveOutcome lv jvm w cls).2 := by
    simp [initResolve, NewGlobalRef, DeleteLocalRef, GetStaticMethodID, EXC_id_trace,
      resolveOutcome, raise_pending]
  rw [h2, if_neg h]

theorem reportCalls_of_disabled (lv : LogLevels) (jvm : JVM) (w : State) (file func : String)
    (h : w.nativeLoggingEnabled = 0) :
    reportCalls lv jvm w file func =
      if w.pending = 0 then [.ExceptionCheck false]
      else [.ExceptionCheck true, .ExceptionOccurred w.pending, .ExceptionClear] := by
  unfold reportCalls
  simp [h]

/-- C4: an `initNative` made in the Uninitialized state with a non-null class whose
`GetStaticMethodID` returns `NULL` and raises an exception returns with
`nativeLoggingEnabled = 0`, `logLevel = OFF` and no pending exception; after the resolution
it issues `ExceptionCheck`, `ExceptionOccurred`, `ExceptionClear` and nothing else, in
particular no `NewStringUTF` and no `CallStaticVoidMethod`; every later `jLog` is a no-op. -/
theorem initNative_resolution_failure (lv : LogLevels) (jvm : JVM) (w : State) (cls : Ref)
    (T : Int) (hen : w.nativeLoggingEnabled = 0) (hlv : w.logLevel = lv.OFF) (hc : cls ≠ 0)
    (hret : (resolveOutcome lv jvm w cls).1 = 0)
    (hraise : (resolveOutcome lv jvm w cls).2 ≠ 0) :
    (initNative lv jvm w cls T).nativeLoggingEnabled = 0 ∧
    (initNative lv jvm w cls T).logLevel = lv.OFF ∧
    (initNative lv jvm w cls T).pending = 0 ∧
    issued w (initNative lv jvm w cls T) =
      (if w.pending = 0 then [.ExceptionCheck false]
       else [.ExceptionCheck true, .ExceptionOccurred w.pending, .ExceptionClear]) ++
      [.NewGlobalRef cls (initNative lv jvm w cls T).class_Logging, .DeleteLocalRef cls,
       .GetStaticMethodID (initNative lv jvm w cls T).class_Logging logName logSig 0,
       .ExceptionCheck true, .ExceptionOccurred (resolveOutcome lv jvm w cls).2,
       .ExceptionClear] ∧
    (∀ c ∈ issued w (initNative lv jvm w cls T),
      isCallStaticVoidMethod c = false ∧ isNewStringUTF c = false) ∧
    (∀ (level : Int) (tag methodName msg : String) (throwable : Ref),
      jLog lv jvm (initNative lv jvm w cls T) level tag methodName msg throwable =
        initNative lv jvm w cls T) := by
  have hm : (initResolve lv jvm w cls).mID_log = 0 := by rw [initResolve_mID_log]; exact hret
  have hfail : ¬ initNativeSucceeds lv jvm w cls T := fun h =>
    ((initNativeSucceeds_iff _ _ _ _ _).1 h).2 hm
  have hE : (initNative lv jvm w cls T).nativeLoggingEnabled = 0 := by
    rw [initNative_nativeLoggingEnabled, if_neg hfail]; exact hen
  have hL : (initNative lv jvm w cls T).logLevel = lv.OFF := by
    rw [initNative_logLevel, if_neg hfail]; exact hlv
  have hcl : (initNative lv jvm w cls T).class_Logging = (initResolve lv jvm w cls).class_Logging := by
    rw [initNative_class_Logging, if_neg hc]
  have hp := initResolve_pending_of_raised lv jvm w cls hraise
  have hI : issued w (initNative lv jvm w cls T) =
      (if w.pending = 0 then [.ExceptionCheck false]
       else [.ExceptionCheck true, .ExceptionOccurred w.pending, .ExceptionClear]) ++
      [.NewGlobalRef cls (initNative lv jvm w cls T).class_Logging, .DeleteLocalRef cls,
       .GetStaticMethodID (initNative lv jvm w cls T).class_Logging logName logSig 0,
       .ExceptionCheck true, .ExceptionOccurred (resolveOutcome lv jvm w cls).2,
       .ExceptionClear] := by
    rw [issued_of_trace_eq _ _ _ (initNative_trace lv jvm w cls T), hcl]
    unfold initCalls
    rw [if_neg hc, reportCalls_of_disabled _ _ _ _ _ hen,
      reportCalls_of_disabled _ _ _ _ _
        ((initResolve_nativeLoggingEnabled lv jvm w cls).trans hen),
      hp, if_neg hraise, hm]
    simp [resolveCalls]
  refine ⟨hE, hL, initNative_pending _ _ _ _ _, hI, ?_, ?_⟩
  · intro c hcm
    rw [hI] at hcm
    by_cases hp0 : w.pending = 0
    · simp only [hp0, if_true, List.mem_append, List.mem_cons, List.mem_singleton,
        List.not_mem_nil, or_false] at hcm
      rcases hcm with h | h | h | h | h | h | h <;> subst h <;> exact ⟨rfl, rfl⟩
    · simp only [hp0, if_false, List.mem_append, List.mem_cons, List.mem_singleton,
        List.not_mem_nil, or_false] at hcm
      rcases hcm with (h | h | h) | h | h | h | h | h | h <;> subst h <;> exact ⟨rfl, rfl⟩
  · intro level tag methodName msg throwable
    exact jLog_of_not_canLog _ _ _ _ _ _ _ _ (canLog_of_logLevel_OFF lv _ level hL)

/-- Witness for C4: class `2` has no `log` method in the sample runtime. -/
theorem initNative_resolution_failure_witness :
    (initialState demoLevels 0).nativeLoggingEnabled = 0 ∧
    (resolveOutcome demoLevels (demoJVM false) (initialState demoLevels 0) 2).1 = 0 ∧
    (resolveOutcome demoLevels (demoJVM false) (initialState demoLevels 0) 2).2 ≠ 0 ∧
    (initNative demoLevels (demoJVM false) (initialState demoLevels 0) 2 5).nativeLoggingEnabled
      = 0 ∧
    (initNative demoLevels (demoJVM false) (initialState demoLevels 0) 2 5).pending = 0 :=
  ⟨by decide, by decide, by decide,
    (initNative_resolution_failure demoLevels (demoJVM false) (initialState demoLevels 0) 2 5
      (by decide) (by decide) (by decide) (by decide) (by decide)).1,
    (initNative_resolution_failure demoLevels (demoJVM false) (initialState demoLevels 0) 2 5
      (by decide) (by decide) (by decide) (by decide) (by decide)).2.2.1⟩

/-- C5: for every threshold, an `initNative` made in the Uninitialized state with a null class
reference returns with `nativeLoggingEnabled = 0`, `logLevel = OFF`, `class_Logging` and
`mID_log` unchanged; it issues only the exception check (and, if an exception was pending,
`ExceptionOccurred` and `ExceptionClear`), so neither `NewGlobalRef` nor `GetStaticMethodID`. -/
theorem initNative_null_class (lv : LogLevels) (jvm : JVM) (w : State) (T : Int)
    (hen : w.nativeLoggingEnabled = 0) (hlv : w.logLevel = lv.OFF) :
    (initNative lv jvm w 0 T).nativeLoggingEnabled = 0 ∧
    (initNative lv jvm w 0 T).logLevel = lv.OFF ∧
    (initNative lv jvm w 0 T).class_Logging = w.class_Logging ∧
    (initNative lv jvm w 0 T).mID_log = w.mID_log ∧
    issued w (initNative lv jvm w 0 T) =
      (if w.pending = 0 then [.ExceptionCheck false]
       else [.ExceptionCheck true, .ExceptionOccurred w.pending, .ExceptionClear]) ∧
    (∀ c ∈ issued w (initNative lv jvm w 0 T),
      isNewGlobalRef c = false ∧ isGetStaticMethodID c = false) := by
  have hI : issued w (initNative lv jvm w 0 T) =
      (if w.pending = 0 then [.ExceptionCheck false]
       else [.ExceptionCheck true, .ExceptionOccurred w.pending, .ExceptionClear]) := by
    rw [issued_of_trace_eq _ _ _ (initNative_trace lv jvm w 0 T)]
    unfold initCalls
    rw [if_pos rfl, reportCalls_of_disabled _ _ _ _ _ hen]
    simp
  refine ⟨?_, ?_, ?_, ?_, hI, ?_⟩
  · rw [initNative_of_null, EXC_id_nativeLoggingEnabled]; exact hen
  · rw [initNative_of_null, EXC_id_logLevel]; exact hlv
  · rw [initNative_of_null, EXC_id_class_Logging]
  · rw [initNative_of_null, EXC_id_mID_log]
  · intro c hcm
    rw [hI] at hcm
    by_cases hp0 : w.pending = 0
    · simp only [hp0, if_true, List.mem_singleton] at hcm
      subst hcm; exact ⟨rfl, rfl⟩
    · simp only [hp0, if_false, List.mem_cons, List.mem_singleton, List.not_mem_nil,
        or_false] at hcm
      rcases hcm with h | h | h <;> subst h <;> exact ⟨rfl, rfl⟩

/-- Witness for C5: the initial state with exception `4` pending. -/
theorem initNative_null_class_witness :
    (initialState demoLevels 4).nativeLoggingEnabled = 0 ∧
    (initialState demoLevels 4).logLevel = demoLevels.OFF ∧
    issued (initialState demoLevels 4)
        (initNative demoLevels (demoJVM false) (initialState demoLevels 4) 0 3) =
      [.ExceptionCheck true, .ExceptionOccurred 4, .ExceptionClear] :=
  ⟨by decide, by decide,
    (initNative_null_class demoLevels (demoJVM false) (initialState demoLevels 4) 3
      (by decide) (by decide)).2.2.2.2.1⟩

theorem reported_fields (lv : LogLevels) (jvm : JVM) (w : State) (file func : String) :
    (reported lv jvm w file func).pending = 0 ∧
    (reported lv jvm w file func).class_Logging = w.class_Logging ∧
    (reported lv jvm w file func).mID_log = w.mID_log ∧
    (reported lv jvm w file func).logLevel = w.logLevel ∧
    (reported lv jvm w file func).nativeLoggingEnabled = w.nativeLoggingEnabled := by
  refine ⟨rfl, ?_, ?_, ?_, ?_⟩
  · simp [reported, LOG_EX_class_Logging, afterOccurred]
  · simp [reported, LOG_EX_mID_log, afterOccurred]
  · simp [reported, LOG_EX_logLevel, afterOccurred]
  · simp [reported, LOG_EX_nativeLoggingEnabled, afterOccurred]

/-- C9: `EXC_CHECK_AND_REPORT(code)`.  With no pending exception it issues `ExceptionCheck`
only and does not run `code`.  With exception `thrown` pending it issues `ExceptionCheck`,
`ExceptionOccurred`, then the eight calls of one forwarded record `(SEVERE, file, func,
"exception occurred", thrown)` exactly when `nativeLoggingEnabled` is nonzero and
`canLog(SEVERE)` holds (no call otherwise), then one `ExceptionClear`, and runs `code` on the
resulting state, in which nothing is pending and the bridge variables are unchanged. -/
theorem EXC_CHECK_AND_REPORT_behaviour (lv : LogLevels) (jvm : JVM) (w : State)
    (file func : String) (code : State → State) :
    (w.pending = 0 →
      EXC_CHECK_AND_REPORT lv jvm w file func code = emit w (.ExceptionCheck false)) ∧
    (w.pending ≠ 0 →
      ∃ (w2 : State) (jTag jMethodName jMsg : Ref),
        EXC_CHECK_AND_REPORT lv jvm w file func code = code w2 ∧
        (jTag, jMethodName, jMsg) = jLogStrings jvm (afterOccurred w) file func excMsg ∧
        w2.trace = w.trace ++ [.ExceptionCheck true, .ExceptionOccurred w.pending] ++
          (if w.nativeLoggingEnabled ≠ 0 ∧ canLog lv w lv.SEVERE ≠ 0 then
            [.NewStringUTF file jTag, .NewStringUTF func jMethodName,
             .NewStringUTF excMsg jMsg,
             .CallStaticVoidMethod w.class_Logging w.mID_log lv.SEVERE jTag jMethodName jMsg
               w.pending,
             .DeleteLocalRef jTag, .DeleteLocalRef jMethodName, .DeleteLocalRef jMsg,
             .DeleteLocalRef w.pending]
           else []) ++ [.ExceptionClear] ∧
        w2.pending = 0 ∧ w2.class_Logging = w.class_Logging ∧ w2.mID_log = w.mID_log ∧
        w2.logLevel = w.logLevel ∧ w2.nativeLoggingEnabled = w.nativeLoggingEnabled) := by
  constructor
  · intro h; exact EXC_of_not_pending _ _ _ _ _ _ h
  · intro h
    refine ⟨reported lv jvm w file func,
      (jLogStrings jvm (afterOccurred w) file func excMsg).1,
      (jLogStrings jvm (afterOccurred w) file func excMsg).2.1,
      (jLogStrings jvm (afterOccurred w) file func excMsg).2.2,
      EXC_of_pending _ _ _ _ _ _ h, rfl, ?_, reported_fields lv jvm w file func⟩
    rw [reported_trace _ _ _ _ _ h]
    unfold reportCalls
    rw [if_neg h]
    simp [forwardCalls]

/-- Witness for C9: the expansion in `initNative`, enabled bridge with threshold `3`, exception
`9` pending: one record is forwarded between `ExceptionOccurred` and `ExceptionClear`. -/
theorem EXC_CHECK_AND_REPORT_behaviour_witness :
    (raise (initNative demoLevels (demoJVM false) (initialState demoLevels 0) 1 3) 9).pending
      ≠ 0 ∧
    ∃ (w2 : State) (jTag jMethodName jMsg : Ref),
      EXC_CHECK_AND_REPORT demoLevels (demoJVM false)
        (raise (initNative demoLevels (demoJVM false) (initialState demoLevels 0) 1 3) 9)
        fileName initFunc id = id w2 ∧
      (jTag, jMethodName, jMsg) = jLogStrings (demoJVM false)
        (afterOccurred
          (raise (initNative demoLevels (demoJVM false) (initialState demoLevels 0) 1 3) 9))
        fileName initFunc excMsg ∧
      w2.trace =
        (raise (initNative demoLevels (demoJVM false) (initialState demoLevels 0) 1 3) 9).trace
          ++ [.ExceptionCheck true, .ExceptionOccurred 9] ++
          [.NewStringUTF fileName jTag, .NewStringUTF initFunc jMethodName,
           .NewStringUTF excMsg jMsg,
           .CallStaticVoidMethod 101 107 1 jTag jMethodName jMsg 9,
           .DeleteLocalRef jTag, .DeleteLocalRef jMethodName, .DeleteLocalRef jMsg,
           .DeleteLocalRef 9] ++ [.ExceptionClear] ∧
      w2.pending = 0 ∧ w2.class_Logging = 101 ∧ w2.mID_log = 107 ∧
      w2.logLevel = 3 ∧ w2.nativeLoggingEnabled = 1 :=
  ⟨by decide,
    (EXC_CHECK_AND_REPORT_behaviour demoLevels (demoJVM false)
      (raise (initNative demoLevels (demoJVM false) (initialState demoLevels 0) 1 3) 9)
      fileName initFunc id).2 (by decide)⟩

theorem reportCalls_filter_isNewGlobalRef (lv : LogLevels) (jvm : JVM) (w : State)
    (file func : String) : (reportCalls lv jvm w file func).filter isNewGlobalRef = [] := by
  unfold reportCalls
  split_ifs <;> simp [forwardCalls, isNewGlobalRef]

theorem reportCalls_filter_isGetStaticMethodID (lv : LogLevels) (jvm : JVM) (w : State)
    (file func : String) :
    (reportCalls lv jvm w file func).filter isGetStaticMethodID = [] := by
  unfold reportCalls
  split_ifs <;> simp [forwardCalls, isGetStaticMethodID]

theorem reportCalls_filter_isDeleteGlobalRef (lv : LogLevels) (jvm : JVM) (w : State)
    (file func : String) :
    (reportCalls lv jvm w file func).filter isDeleteGlobalRef = [] := by
  unfold reportCalls
  split_ifs <;> simp [forwardCalls, isDeleteGlobalRef]

theorem initCalls_filter_isNewGlobalRef (lv : LogLevels) (jvm : JVM) (w : State) (cls : Ref)
    (hc : cls ≠ 0) :
    (initCalls lv jvm w cls).filter isNewGlobalRef =
      [.NewGlobalRef cls (initResolve lv jvm w cls).class_Logging] := by
  unfold initCalls
  rw [if_neg hc]
  simp [List.filter_append, reportCalls_filter_isNewGlobalRef, resolveCalls, isNewGlobalRef]

theorem initCalls_filter_isGetStaticMethodID (lv : LogLevels) (jvm : JVM) (w : State)
    (cls : Ref) (hc : cls ≠ 0) :
    (initCalls lv jvm w cls).filter isGetStaticMethodID =
      [.GetStaticMethodID (initResolve lv jvm w cls).class_Logging logName logSig
        (initResolve lv jvm w cls).mID_log] := by
  unfold initCalls
  rw [if_neg hc]
  simp [List.filter_append, reportCalls_filter_isGetStaticMethodID, resolveCalls,
    isGetStaticMethodID]

theorem initCalls_filter_isDeleteGlobalRef (lv : LogLevels) (jvm : JVM) (w : State)
    (cls : Ref) : (initCalls lv jvm w cls).filter isDeleteGlobalRef = [] := by
  unfold initCalls
  split_ifs <;>
    simp [List.filter_append, reportCalls_filter_isDeleteGlobalRef, resolveCalls,
      isDeleteGlobalRef]

/-- C8: after two successive successful `initNative` calls, `(cls1, T1)` then `(cls2, T2)`,
`jLog` at level `L` issues the eight calls of a forwarded record exactly when
`OFF < L ≤ ALL` and `L ≤ T2`, and is a no-op otherwise; the forwarded call goes to
`class_Logging` and `mID_log`, which are the results of the one `NewGlobalRef` and the one
`GetStaticMethodID` issued by the second call; the first call had created and cached a global
reference of its own, and neither call issues `DeleteGlobalRef`. -/
theorem second_initNative_prevails (lv : LogLevels) (jvm : JVM) (w w1 w2 : State)
    (cls1 cls2 : Ref) (T1 T2 : Int)
    (hw1 : w1 = initNative lv jvm w cls1 T1) (hw2 : w2 = initNative lv jvm w1 cls2 T2)
    (h1 : initNativeSucceeds lv jvm w cls1 T1) (h2 : initNativeSucceeds lv jvm w1 cls2 T2) :
    (∀ (L : Int) (tag methodName msg : String) (throwable : Ref),
      ((lv.OFF < L ∧ L ≤ lv.ALL ∧ L ≤ T2) →
        issued w2 (jLog lv jvm w2 L tag methodName msg throwable) =
          forwardCalls w2 L tag methodName msg throwable
            (jLogStrings jvm w2 tag methodName msg)) ∧
      (¬ (lv.OFF < L ∧ L ≤ lv.ALL ∧ L ≤ T2) →
        jLog lv jvm w2 L tag methodName msg throwable = w2)) ∧
    (issued w w1).filter isNewGlobalRef = [.NewGlobalRef cls1 w1.class_Logging] ∧
    (issued w1 w2).filter isNewGlobalRef = [.NewGlobalRef cls2 w2.class_Logging] ∧
    (issued w1 w2).filter isGetStaticMethodID =
      [.GetStaticMethodID w2.class_Logging logName logSig w2.mID_log] ∧
    (issued w w1 ++ issued w1 w2).filter isDeleteGlobalRef = [] := by
  have hcl1 : w1.class_Logging = (initResolve lv jvm w cls1).class_Logging := by
    rw [hw1, initNative_class_Logging, if_neg h1.1]
  have hT : w2.logLevel = T2 := by rw [hw2]; exact initNative_succeeds_logLevel _ _ _ _ _ h2
  have hI1 : issued w w1 = initCalls lv jvm w cls1 := by
    rw [hw1]; exact issued_of_trace_eq _ _ _ (initNative_trace lv jvm w cls1 T1)
  have hI2 : issued w1 w2 = initCalls lv jvm w1 cls2 := by
    rw [hw2]; exact issued_of_trace_eq _ _ _ (initNative_trace lv jvm w1 cls2 T2)
  have hcl : w2.class_Logging = (initResolve lv jvm w1 cls2).class_Logging := by
    rw [hw2, initNative_class_Logging, if_neg h2.1]
  have hmi : w2.mID_log = (initResolve lv jvm w1 cls2).mID_log := by
    rw [hw2, initNative_mID_log, if_neg h2.1]
  refine ⟨?_, ?_, ?_, ?_, ?_⟩
  · intro L tag methodName msg throwable
    constructor
    · intro hL
      have hc : canLog lv w2 L ≠ 0 := by rw [canLog_ne_zero_iff, hT]; exact hL
      exact issued_of_trace_eq _ _ _ (jLog_trace_of_canLog _ _ _ _ _ _ _ _ hc)
    · intro hL
      have hc : canLog lv w2 L = 0 := by rw [canLog_eq_zero_iff, hT]; exact hL
      exact jLog_of_not_canLog _ _ _ _ _ _ _ _ hc
  · rw [hI1, hcl1]; exact initCalls_filter_isNewGlobalRef _ _ _ _ h1.1
  · rw [hI2, hcl]; exact initCalls_filter_isNewGlobalRef _ _ _ _ h2.1
  · rw [hI2, hcl, hmi]; exact initCalls_filter_isGetStaticMethodID _ _ _ _ h2.1
  · rw [hI1, hI2, List.filter_append, initCalls_filter_isDeleteGlobalRef,
      initCalls_filter_isDeleteGlobalRef]
    rfl

/-- Witness for C8: class `1` with threshold `5`, then class `3` with threshold `2`. -/
theorem second_initNative_prevails_witness :
    initNativeSucceeds demoLevels (demoJVM false) (initialState demoLevels 0) 1 5 ∧
    initNativeSucceeds demoLevels (demoJVM false)
      (initNative demoLevels (demoJVM false) (initialState demoLevels 0) 1 5) 3 2 ∧
    (issued (initNative demoLevels (demoJVM false) (initialState demoLevels 0) 1 5)
      (initNative demoLevels (demoJVM false)
        (initNative demoLevels (demoJVM false) (initialState demoLevels 0) 1 5) 3 2)).filter
      isNewGlobalRef = [.NewGlobalRef 3 103] :=
  ⟨by decide, by decide,
    (second_initNative_prevails demoLevels (demoJVM false) (initialState demoLevels 0)
      (initNative demoLevels (demoJVM false) (initialState demoLevels 0) 1 5)
      (initNative demoLevels (demoJVM false)
        (initNative demoLevels (demoJVM false) (initialState demoLevels 0) 1 5) 3 2)
      1 3 5 2 rfl rfl (by decide) (by decide)).2.2.1⟩

/-! ## Re-initialisation -/

theorem forwardCalls_not_null (w : State) (level : Int) (tag methodName msg : String)
    (throwable : Ref) (s : Ref × Ref × Ref) (hc : w.class_Logging ≠ 0) (hm : w.mID_log ≠ 0) :
    ∀ c ∈ forwardCalls w level tag methodName msg throwable s, isNullCall c = false := by
  intro c hcm
  simp only [forwardCalls, List.mem_cons, List.mem_singleton, List.not_mem_nil, or_false] at hcm
  rcases hcm with h | h | h | h | h | h | h | h <;> subst h <;> simp [isNullCall, hc, hm]

theorem reportCalls_not_null (lv : LogLevels) (jvm : JVM) (w : State) (file func : String)
    (h : w.nativeLoggingEnabled ≠ 0 → w.class_Logging ≠ 0 ∧ w.mID_log ≠ 0) :
    ∀ c ∈ reportCalls lv jvm w file func, isNullCall c = false := by
  intro c hcm
  unfold reportCalls at hcm
  by_cases hp : w.pending = 0
  · rw [if_pos hp] at hcm
    simp only [List.mem_singleton] at hcm
    subst hcm; rfl
  · rw [if_neg hp] at hcm
    by_cases hl : w.nativeLoggingEnabled ≠ 0 ∧ canLog lv w lv.SEVERE ≠ 0
    · rw [if_pos hl] at hcm
      simp only [List.mem_append, List.mem_cons, List.mem_singleton, List.not_mem_nil,
        or_false] at hcm
      rcases hcm with ((h1 | h1) | h1) | h1
      · subst h1; rfl
      · subst h1; rfl
      · exact forwardCalls_not_null _ _ _ _ _ _ _ (h hl.1).1 (h hl.1).2 c h1
      · subst h1; rfl
    · rw [if_neg hl] at hcm
      simp only [List.mem_append, List.mem_cons, List.mem_singleton, List.not_mem_nil,
        or_false] at hcm
      rcases hcm with (h1 | h1) | h1 <;> subst h1 <;> rfl

theorem resolveCalls_not_null (cls g m : Ref) :
    ∀ c ∈ resolveCalls cls g m, isNullCall c = false := by
  intro c hcm
  simp only [resolveCalls, List.mem_cons, List.mem_singleton, List.not_mem_nil, or_false] at hcm
  rcases hcm with h | h | h <;> subst h <;> rfl

theorem Inv_jLog (lv : LogLevels) (jvm : JVM) (w : State) (level : Int)
    (tag methodName msg : String) (throwable : Ref) (h : Inv lv w) :
    Inv lv (jLog lv jvm w level tag methodName msg throwable) := by
  obtain ⟨ha, hb, hc⟩ := h
  refine ⟨?_, ?_, ?_⟩
  · rw [jLog_nativeLoggingEnabled, jLog_logLevel]; exact ha
  · rw [jLog_nativeLoggingEnabled, jLog_class_Logging, jLog_mID_log]; exact hb
  · by_cases hcan : canLog lv w level = 0
    · rw [jLog_of_not_canLog _ _ _ _ _ _ _ _ hcan]; exact hc
    · rw [jLog_trace_of_canLog _ _ _ _ _ _ _ _ hcan]
      have hen : w.nativeLoggingEnabled ≠ 0 := fun h0 =>
        hcan (canLog_of_logLevel_OFF lv w level (ha h0))
      intro c hcm
      rcases List.mem_append.mp hcm with h1 | h1
      · exact hc c h1
      · exact forwardCalls_not_null _ _ _ _ _ _ _ (hb hen).1 (hb hen).2 c h1

theorem Inv_initNative (lv : LogLevels) (jvm : JVM) (w : State) (cls : Ref) (level : Int)
    (hg : globalRefsNonNull jvm) (h : Inv lv w)
    (hr : w.nativeLoggingEnabled ≠ 0 → cls ≠ 0 → initNativeSucceeds lv jvm w cls level) :
    Inv lv (initNative lv jvm w cls level) := by
  obtain ⟨ha, hb, hc⟩ := h
  have hgl : cls ≠ 0 → (initResolve lv jvm w cls).class_Logging ≠ 0 := by
    intro hcls; rw [initResolve_class_Logging]; exact hg _ _ hcls
  refine ⟨?_, ?_, ?_⟩
  · rw [initNative_nativeLoggingEnabled, initNative_logLevel]
    by_cases hs : initNativeSucceeds lv jvm w cls level
    · rw [if_pos hs]; intro h1; exact absurd h1 (by decide)
    · rw [if_neg hs, if_neg hs]; exact ha
  · rw [initNative_nativeLoggingEnabled, initNative_class_Logging, initNative_mID_log]
    by_cases hcls : cls = 0
    · rw [if_neg (fun hs : initNativeSucceeds lv jvm w cls level => hs.1 hcls), if_pos hcls,
        if_pos hcls]
      exact hb
    · rw [if_neg hcls, if_neg hcls]
      intro hen
      have hs : initNativeSucceeds lv jvm w cls level := by
        by_cases hs : initNativeSucceeds lv jvm w cls level
        · exact hs
        · rw [if_neg hs] at hen; exact hr hen hcls
      exact ⟨hgl hcls, ((initNativeSucceeds_iff _ _ _ _ _).1 hs).2⟩
  · rw [initNative_trace]
    intro c hcm
    rcases List.mem_append.mp hcm with h1 | h1
    · exact hc c h1
    · unfold initCalls at h1
      rcases List.mem_append.mp h1 with h2 | h2
      · exact reportCalls_not_null lv jvm w _ _ hb c h2
      · by_cases hcls : cls = 0
        · rw [if_pos hcls] at h2; exact absurd h2 (List.not_mem_nil c)
        · rw [if_neg hcls] at h2
          rcases List.mem_append.mp h2 with h3 | h3
          · exact resolveCalls_not_null _ _ _ c h3
          · refine reportCalls_not_null lv jvm _ _ _ ?_ c h3
            rw [initResolve_nativeLoggingEnabled]
            intro hen
            exact ⟨hgl hcls, ((initNativeSucceeds_iff _ _ _ _ _).1 (hr hen hcls)).2⟩

theorem Inv_run (lv : LogLevels) (jvm : JVM) (hg : globalRefsNonNull jvm)
    (calls : List BridgeCall) :
    ∀ w : State, Inv lv w → reinitOk lv jvm w calls = true → Inv lv (run lv jvm w calls) := by
  induction calls with
  | nil => intro w h _; exact h
  | cons c cs ih =>
    intro w h hr
    cases c with
    | initNative cls level =>
      simp only [reinitOk, Bool.and_eq_true, decide_eq_true_eq] at hr
      exact ih _ (Inv_initNative lv jvm w cls level hg h hr.1) hr.2
    | jLog level tag methodName msg throwable =>
      simp only [reinitOk] at hr
      exact ih _ (Inv_jLog lv jvm w level tag methodName msg throwable h) hr

theorem Inv_initialState (lv : LogLevels) (pending : Ref) : Inv lv (initialState lv pending) :=
  ⟨fun _ => rfl, fun h => absurd rfl h, fun _ h => absurd h (List.not_mem_nil _)⟩

/-- C6, as stated, fails.  (a) After a successful `initNative` on class `1`, a second
`initNative` on class `2`, whose method resolution fails, returns with the flag still `1` and
`mID_log = NULL`.  (b) When `NewGlobalRef` answers `NULL` and `GetStaticMethodID` answers a
method ID, a single `initNative` returns with the flag `1` and `class_Logging = NULL`. -/
theorem enabled_with_null_handle :
    ((run demoLevels (demoJVM false) (initialState demoLevels 0)
        [.initNative 1 3, .initNative 2 5]).nativeLoggingEnabled = 1 ∧
      (run demoLevels (demoJVM false) (initialState demoLevels 0)
        [.initNative 1 3, .initNative 2 5]).mID_log = 0 ∧
      ¬ initNativeSucceeds demoLevels (demoJVM false)
        (run demoLevels (demoJVM false) (initialState demoLevels 0) [.initNative 1 3]) 2 5) ∧
    ((run demoLevels nullGlobalJVM (initialState demoLevels 0)
        [.initNative 1 3]).nativeLoggingEnabled = 1 ∧
      (run demoLevels nullGlobalJVM (initialState demoLevels 0)
        [.initNative 1 3]).class_Logging = 0) := by
  decide

/-- C6, amended: assume `NewGlobalRef` never answers `NULL` on a non-null reference, and
consider the states reached from the initial state by `initNative` and `jLog` calls among
which every `initNative` made with a non-null class while the flag is already nonzero
succeeds.  In such a state, if `nativeLoggingEnabled` is nonzero then `class_Logging` and
`mID_log` are non-null.  Moreover, in any state, an `initNative` call that does not succeed
leaves the flag as it was. -/
theorem enabled_implies_handles (lv : LogLevels) (jvm : JVM) (pending : Ref)
    (calls : List BridgeCall) (hg : globalRefsNonNull jvm)
    (hr : reinitOk lv jvm (initialState lv pending) calls = true) :
    ((run lv jvm (initialState lv pending) calls).nativeLoggingEnabled ≠ 0 →
      (run lv jvm (initialState lv pending) calls).class_Logging ≠ 0 ∧
      (run lv jvm (initialState lv pending) calls).mID_log ≠ 0) ∧
    (∀ (w : State) (cls : Ref) (T : Int), ¬ initNativeSucceeds lv jvm w cls T →
      (initNative lv jvm w cls T).nativeLoggingEnabled = w.nativeLoggingEnabled) := by
  refine ⟨(Inv_run lv jvm hg calls _ (Inv_initialState lv pending) hr).2.1, ?_⟩
  intro w cls T hs
  rw [initNative_nativeLoggingEnabled, if_neg hs]

/-- Witness for the amended C6: a failed initialisation, a successful one, a forwarded record
and a successful re-initialisation. -/
theorem enabled_implies_handles_witness :
    globalRefsNonNull (demoJVM false) ∧
    reinitOk demoLevels (demoJVM false) (initialState demoLevels 0)
      [.initNative 2 5, .initNative 1 3, .jLog 2 fileName logName excMsg 0, .initNative 3 4]
      = true ∧
    (run demoLevels (demoJVM false) (initialState demoLevels 0)
      [.initNative 2 5, .initNative 1 3, .jLog 2 fileName logName excMsg 0,
        .initNative 3 4]).nativeLoggingEnabled ≠ 0 ∧
    (run demoLevels (demoJVM false) (initialState demoLevels 0)
      [.initNative 2 5, .initNative 1 3, .jLog 2 fileName logName excMsg 0,
        .initNative 3 4]).class_Logging ≠ 0 ∧
    (run demoLevels (demoJVM false) (initialState demoLevels 0)
      [.initNative 2 5, .initNative 1 3, .jLog 2 fileName logName excMsg 0,
        .initNative 3 4]).mID_log ≠ 0 :=
  ⟨fun _ obj _ => Nat.succ_ne_zero (obj + 99), by decide, by decide,
    (enabled_implies_handles demoLevels (demoJVM false) 0
      [.initNative 2 5, .initNative 1 3, .jLog 2 fileName logName excMsg 0, .initNative 3 4]
      (fun _ obj _ => Nat.succ_ne_zero (obj + 99)) (by decide)).1 (by decide)⟩

/-- C10, as stated, fails although `NewGlobalRef` never answers `NULL`: after a successful
`initNative` on class `1` with threshold `3`, an `initNative` on class `2`, whose method
resolution fails and raises exception `9`, reports that exception through `jLog` with the
method ID just overwritten by `NULL`; a later `jLog` at level `2` does the same. -/
theorem null_method_call_on_reinit :
    globalRefsNonNull (demoJVM false) ∧
    (run demoLevels (demoJVM false) (initialState demoLevels 0)
      [.initNative 1 3, .initNative 2 5, .jLog 2 fileName logName excMsg 0]).trace.filter
      isCallStaticVoidMethod =
        [.CallStaticVoidMethod 102 0 1 1011 1012 1013 9,
         .CallStaticVoidMethod 102 0 2 1020 1021 1022 0] :=
  ⟨fun _ obj _ => Nat.succ_ne_zero (obj + 99), by decide⟩

/-- C10, amended: assume `NewGlobalRef` never answers `NULL` on a non-null reference.  Along
every execution from the initial state in which every `initNative` made with a non-null class
while the flag is already nonzero succeeds, every `CallStaticVoidMethod` issued (by a direct
`jLog` or by the exception report inside `initNative`) has a non-null class and a non-null
method ID. -/
theorem calls_have_handles (lv : LogLevels) (jvm : JVM) (pending : Ref)
    (calls : List BridgeCall) (hg : globalRefsNonNull jvm)
    (hr : reinitOk lv jvm (initialState lv pending) calls = true) :
    ∀ (cls mid : Ref) (level : Int) (jTag jMethodName jMsg throwable : Ref),
      JniCall.CallStaticVoidMethod cls mid level jTag jMethodName jMsg throwable ∈
        (run lv jvm (initialState lv pending) calls).trace → cls ≠ 0 ∧ mid ≠ 0 := by
  intro cls mid level jTag jMethodName jMsg throwable hmem
  have h := (Inv_run lv jvm hg calls _ (Inv_initialState lv pending) hr).2.2 _ hmem
  simp only [isNullCall, Bool.or_eq_false_iff, beq_eq_false_iff_ne] at h
  exact h

/-- Witness for the amended C10: the record forwarded after a failed and then a successful
initialisation goes to class `101` and method ID `107`. -/
theorem calls_have_handles_witness :
    globalRefsNonNull (demoJVM true) ∧
    reinitOk demoLevels (demoJVM true) (initialState demoLevels 0)
      [.initNative 2 5, .initNative 1 3, .jLog 2 fileName logName excMsg 0, .initNative 3 4]
      = true ∧
    JniCall.CallStaticVoidMethod 101 107 2 1012 1013 1014 0 ∈
      (run demoLevels (demoJVM true) (initialState demoLevels 0)
        [.initNative 2 5, .initNative 1 3, .jLog 2 fileName logName excMsg 0,
          .initNative 3 4]).trace ∧
    ((101 : Ref) ≠ 0 ∧ (107 : Ref) ≠ 0) :=
  ⟨fun _ obj _ => Nat.succ_ne_zero (obj + 99), by decide, by decide,
    calls_have_handles demoLevels (demoJVM true) 0
      [.initNative 2 5, .initNative 1 3, .jLog 2 fileName logName excMsg 0, .initNative 3 4]
      (fun _ obj _ => Nat.succ_ne_zero (obj + 99)) (by decide) 101 107 2 1012 1013 1014 0
      (by decide)⟩

end LogBridge
